import Mathlib

/-!
Verification of the HAR experiment-running harness (`src/run_experiment.py`).

The harness is orchestration glue: it loads a sensor dataset, optionally
concatenates gyroscope channels onto accelerometer channels, reshapes the
feature arrays per architecture type, builds stratified folds over the
training set, and per fold either fits a non-iterative model (logging a CSV
report) or runs an iterative training loop.  We embed the data model and the
operations of `Experiment.run` shallowly: numpy arrays of shape (N, T, C)
become nested lists, fallible steps become `Except`, and the run's
side-effecting structure becomes explicit state passing with an event trace.
-/

set_option autoImplicit false
set_option linter.unusedVariables false

namespace HarComparison

universe u
variable {α : Type u} {β : Type u}

/-! ### Data model -/

/-- Result of `dm.load_dataset` (run_experiment.py line 36, interface in the
spec §6): accelerometer and label arrays per split, gyroscope arrays optional
(`None` in Python becomes `Option.none`).  A rank-3 array of shape (N, T, C)
is a list of N samples, each a list of T time steps, each a list of C
channel values. -/
structure Dataset (α : Type u) where
  x_acc_train : List (List (List α))
  x_gyr_train : Option (List (List (List α)))
  y_train : List Nat
  x_acc_test : List (List (List α))
  x_gyr_test : Option (List (List (List α)))
  y_test : List Nat

/-- Shape predicate for a rank-2 array: N rows of length M. -/
def isShape2 (n m : Nat) (x : List (List α)) : Prop :=
  x.length = n ∧ ∀ r ∈ x, r.length = m

/-- Shape predicate for a rank-3 array of shape (N, T, C). -/
def isShape3 (n t c : Nat) (x : List (List (List α))) : Prop :=
  x.length = n ∧ ∀ m ∈ x, m.length = t ∧ ∀ r ∈ m, r.length = c

/-- Shape predicate for a rank-4 array of shape (N, A, T, C). -/
def isShape4 (n a t c : Nat) (x : List (List (List (List α)))) : Prop :=
  x.length = n ∧ ∀ b ∈ x, b.length = a ∧ ∀ m ∈ b, m.length = t ∧ ∀ r ∈ m, r.length = c

instance (n m : Nat) (x : List (List α)) : Decidable (isShape2 n m x) := by
  unfold isShape2; infer_instance

instance (n t c : Nat) (x : List (List (List α))) : Decidable (isShape3 n t c x) := by
  unfold isShape3; infer_instance

instance (n a t c : Nat) (x : List (List (List (List α)))) :
    Decidable (isShape4 n a t c x) := by
  unfold isShape4; infer_instance

/-! ### Channel concatenation (lines 56-58) -/

/-- Errors the run can surface: a missing-key `KeyError` on the definition
dict (a configuration error), a dataset-loading failure, numpy's `TypeError`
from concatenating with `None`, and a collaborator failure during
fit/predict/train. -/
inductive RunError where
  | configError (key : String)
  | dataError
  | typeError
  | modelError (msg : String)
deriving DecidableEq, Repr

/-- The numpy call `np.concatenate((a, b), axis=2)` on two rank-3 arrays:
channel vectors are appended sample-wise and step-wise. -/
def concatChannels (a b : List (List (List α))) : List (List (List α)) :=
  List.zipWith (fun ma mb => List.zipWith (fun ra rb => ra ++ rb) ma mb) a b

/-- The numpy call `np.concatenate((a, b), axis=2)` where `b` is an optional
array: passing Python `None` to `np.concatenate` raises a `TypeError`. -/
def npConcatOpt (a : List (List (List α))) (b : Option (List (List (List α)))) :
    Except RunError (List (List (List α))) :=
  match b with
  | some g => Except.ok (concatChannels a g)
  | none => Except.error RunError.typeError

/-- Line 56: `gyro = gyro and ds.x_gyr_train is not None` — the effective
gyroscope flag is the requested flag gated by presence of the *train*
gyroscope array only. -/
def effectiveGyro (flag : Bool) (ds : Dataset α) : Bool :=
  flag && ds.x_gyr_train.isSome

/-- Line 57: the training feature array `x` — concatenation of accelerometer
and gyroscope channels when the effective flag is set, accelerometer only
otherwise. -/
def trainFeatures (flag : Bool) (ds : Dataset α) :
    Except RunError (List (List (List α))) :=
  if effectiveGyro flag ds then npConcatOpt ds.x_acc_train ds.x_gyr_train
  else Except.ok ds.x_acc_train

/-- Line 58: the test feature array `x_ts_np` — gated by the same effective
flag, which was computed from the *train* gyroscope array. -/
def testFeatures (flag : Bool) (ds : Dataset α) :
    Except RunError (List (List (List α))) :=
  if effectiveGyro flag ds then npConcatOpt ds.x_acc_test ds.x_gyr_test
  else Except.ok ds.x_acc_test

/-! ### Architecture reshapes (lines 63-67 and 115-117) -/

/-- Line 64 / 116-117: `np.reshape(x, (N, 1, T, C))` — insert a singleton
axis before the time axis. -/
def cnnReshape (x : List (List (List α))) : List (List (List (List α))) :=
  x.map (fun m => [m])

/-- Lines 66-67: `np.reshape(x, (N, T*C))` — flatten the time and channel
axes of each sample into one feature vector (row-major order, as numpy). -/
def dbnReshape (x : List (List (List α))) : List (List α) :=
  x.map List.flatten

/-- Row-major `np.reshape(v, (t, c))` of a flat vector back into t rows of
c entries, as used to state the dbn round-trip. -/
def splitRows (t c : Nat) (l : List α) : List (List α) :=
  (List.range t).map (fun j => (l.drop (j * c)).take c)

/-- `np.reshape(x, (n, t, c))` of a rank-2 array back to rank 3: each flat
feature vector is split into t rows of c channels. -/
def reshape3 (t c : Nat) (x : List (List α)) : List (List (List α)) :=
  x.map (splitRows t c)

/-- Rank-polymorphic feature array, the type of `x_ts_np` / `x_tr` / `x_va`
after the architecture-dependent reshape dispatch. -/
inductive Feat (α : Type u) where
  | r2 : List (List α) → Feat α
  | r3 : List (List (List α)) → Feat α
  | r4 : List (List (List (List α))) → Feat α
deriving DecidableEq, Repr

/-- Lines 63-67: the reshape applied to the test feature array once, before
the fold loop, dispatched on the architecture type string. -/
def reshapeTest (arch : String) (x : List (List (List α))) : Feat α :=
  if arch = "cnn" then Feat.r4 (cnnReshape x)
  else if arch = "dbn" then Feat.r2 (dbnReshape x)
  else Feat.r3 x

/-- Lines 115-117: on the iterative (non-dbn) path, the reshape applied to a
fold's sliced train or validation feature array inside the loop. -/
def reshapeFold (arch : String) (x : List (List (List α))) : Feat α :=
  if arch = "cnn" then Feat.r4 (cnnReshape x) else Feat.r3 x

/-! ### Row slicing (numpy fancy indexing, lines 83-84) -/

/-- Numpy fancy indexing `x[idx]`: pick the rows listed in `idx`, in order.
Out-of-range indices (which numpy rejects) are totalized with `default`;
every theorem about `select` assumes the indices are in range. -/
def select [Inhabited β] (x : List β) (idx : List Nat) : List β :=
  idx.map (fun i => x.getD i default)

/-! ### Stratified k-fold splitter (line 79)

`StratifiedKFold(n_splits=k, shuffle=True, random_state=0)` is a
third-party collaborator (sklearn), not code of this repository, so we model
it from the spec (§3 Fold, §4.1 step 7): folds are index partitions of the
training set, stratified by label, shuffled with a fixed seed, mutually
exclusive and exhaustive. -/

/-- Rank of index `i` within its own label class: how many earlier training
indices carry the same label. -/
def classRank (y : List Nat) (i : Nat) : Nat :=
  ((y.take i).filter (fun c => c = y.getD i 0)).length

/-- Modelled from the spec: the fold that the seeded stratified splitter
assigns index `i` to — round-robin within the label class of `i`, rotated by
the seed.  This realizes stratification (each class's indices are spread as
evenly as possible over the k folds) and determinism in the seed. -/
def foldOf (seed k : Nat) (y : List Nat) (i : Nat) : Nat :=
  (classRank y i + seed) % k

/-- Validation indices of fold `f`: the training indices assigned to `f`. -/
def valIdx (seed k : Nat) (y : List Nat) (f : Nat) : List Nat :=
  (List.range y.length).filter (fun i => foldOf seed k y i = f)

/-- Train indices of fold `f`: the training indices assigned elsewhere. -/
def trainIdx (seed k : Nat) (y : List Nat) (f : Nat) : List Nat :=
  (List.range y.length).filter (fun i => foldOf seed k y i ≠ f)

/-- Modelled from the spec: the splitter's `split` output — one
(train-indices, validation-indices) pair per fold, k folds in all. -/
def skfSplit (seed k : Nat) (y : List Nat) : List (List Nat × List Nat) :=
  (List.range k).map (fun f => (trainIdx seed k y f, valIdx seed k y f))

/-- Line 79: the harness builds the splitter with `random_state=0`; the
features array is consulted only for its row count, the assignment depends
on the labels. -/
def buildFolds (x : List (List (List α))) (y : List Nat) (k : Nat) :
    List (List Nat × List Nat) :=
  skfSplit 0 k y

/-! ### Run setup (lines 42-58): definition parsing and data loading -/

/-- The parsed experiment-definition JSON object, each required key possibly
absent (`KeyError` on access). -/
structure ExpDefFile where
  gyroscope : Option Bool
  arch : Option String
  name : Option String
  preprocess : Option Bool

/-- Observable actions of the run that the claims talk about. -/
inductive Event where
  | loadData
  | fitCall (fold : Nat)
  | trainCall (fold : Nat)
deriving DecidableEq, Repr

/-- Lines 45-58 of `run()`: read the required keys in program order
(`gyroscope`, `type`, `name`, `preprocess`; a missing key raises, modelled
as a `configError` naming the key), then load the dataset (emitting
`Event.loadData`), then build the train and test feature arrays.  Returns
the effective gyroscope flag, the architecture type, and the two feature
arrays, together with the trace of events. -/
def runSetup (d : ExpDefFile) (loadResult : Except RunError (Dataset α)) :
    Except RunError (Bool × String × List (List (List α)) × List (List (List α))) ×
      List Event :=
  match d.gyroscope with
  | none => (Except.error (RunError.configError "gyroscope"), [])
  | some g =>
    match d.arch with
    | none => (Except.error (RunError.configError "type"), [])
    | some a =>
      match d.name with
      | none => (Except.error (RunError.configError "name"), [])
      | some _ =>
        match d.preprocess with
        | none => (Except.error (RunError.configError "preprocess"), [])
        | some _ =>
          match loadResult with
          | Except.error e => (Except.error e, [Event.loadData])
          | Except.ok ds =>
            match trainFeatures g ds with
            | Except.error e => (Except.error e, [Event.loadData])
            | Except.ok xtr =>
              match testFeatures g ds with
              | Except.error e => (Except.error e, [Event.loadData])
              | Except.ok xts =>
                (Except.ok (effectiveGyro g ds, a, xtr, xts), [Event.loadData])

/-! ### Non-iterative ("dbn") log loop (lines 80-113) -/

/-- Per-fold metric values as the Python f-string renders them; the harness
treats them opaquely, so we keep them as strings supplied by the model
collaborator. -/
structure FoldMetrics where
  elapsed : String
  epochs : String
  accuracy : String
  valF1 : String
  testF1 : String

/-- Line 81: the header row that seeds the accumulated report string. -/
def headerRow : String :=
  "fold, time, best_epoch, best_accuracy, best_validation_f1, best_test_f1\n"

/-- Line 107: one data row of the report. -/
def renderRow (k : Nat) (m : FoldMetrics) : String :=
  toString k ++ "," ++ m.elapsed ++ "," ++ m.epochs ++ "," ++ m.accuracy ++
    "," ++ m.valF1 ++ "," ++ m.testF1 ++ "\n"

/-- Line 110: the log file name `{dataset}_{experiment_name}.csv`. -/
def logFileName (dataset expName : String) : String :=
  dataset ++ "_" ++ expName ++ ".csv"

/-- A file on disk: name and current content. -/
structure LogFile where
  name : String
  content : String
deriving DecidableEq, Repr

/-- State threaded through the dbn fold loop: the accumulated report string
`row` and the log file (none before the first write). -/
structure DbnState where
  row : String
  file : Option LogFile
deriving DecidableEq, Repr

/-- Lines 107-113 for one fold `k` on the dbn path: append this fold's data
row to the report, and when saving is on, open the log file in mode "w"
(truncating) and write the whole accumulated report. -/
def dbnStep (save : Bool) (dataset expName : String) (k : Nat)
    (m : FoldMetrics) (s : DbnState) : DbnState :=
  let r := s.row ++ renderRow k m
  { row := r
    file := if save then some ⟨logFileName dataset expName, r⟩ else s.file }

/-- The dbn-path report state after the first `i` folds, with metrics of
fold `k` supplied by the collaborator oracle `M k` (folds are 1-indexed, as
`self.k_fold` is). -/
def dbnLoop (save : Bool) (dataset expName : String)
    (M : Nat → FoldMetrics) : Nat → DbnState
  | 0 => { row := headerRow, file := none }
  | i + 1 => dbnStep save dataset expName (i + 1) (M (i + 1))
      (dbnLoop save dataset expName M i)

/-- The data rows for folds 1..i, in fold order. -/
def reportRows (M : Nat → FoldMetrics) (i : Nat) : List String :=
  (List.range' 1 i).map (fun k => renderRow k (M k))

/-- Concatenation of a list of report lines into file content. -/
def concatStrings : List String → String
  | [] => ""
  | s :: ss => s ++ concatStrings ss

/-! ### Fold-loop failure propagation (lines 82-135) -/

/-- One fold's interaction with the lab collaborator (build, then fit and
predict on the dbn path or train on the iterative path), abstracted as a
fallible call returning that fold's metrics.  An exception raised inside
becomes `Except.error`. -/
def FoldOp (E : Type) (R : Type) := Nat → Except E R

/-- The fold loop of `run()` for a list of fold numbers: process each fold
in order; there is no try/except around the body, so the first error stops
the loop and is returned unchanged. -/
def runFoldList {E R : Type} (op : FoldOp E R) : List Nat → Except E (List R)
  | [] => Except.ok []
  | k :: ks =>
    match op k with
    | Except.error e => Except.error e
    | Except.ok m =>
      match runFoldList op ks with
      | Except.error e => Except.error e
      | Except.ok ms => Except.ok (m :: ms)

/-- Which folds the loop actually attempts (each exactly once, in order):
after a failing fold nothing further runs. -/
def attempted {E R : Type} (op : FoldOp E R) : List Nat → List Nat
  | [] => []
  | k :: ks =>
    match op k with
    | Except.error _ => [k]
    | Except.ok _ => k :: attempted op ks

/-! ### Concrete data for witnesses -/

/-- A concrete accelerometer array of shape (2, 2, 2). -/
def accA : List (List (List Int)) := [[[1, 2], [3, 4]], [[5, 6], [7, 8]]]

/-- A concrete gyroscope array of shape (2, 2, 1). -/
def gyrA : List (List (List Int)) := [[[10], [11]], [[12], [13]]]

/-- A dataset whose train split has gyroscope data but whose test split has
none (Python `None`). -/
def dsMixed : Dataset Int :=
  ⟨accA, some gyrA, [0, 1], accA, none, [0, 1]⟩

/-- A dataset with gyroscope data present on both splits. -/
def dsFull : Dataset Int :=
  ⟨accA, some gyrA, [0, 1], accA, some gyrA, [0, 1]⟩

/-- An experiment-definition object lacking the `type` key. -/
def defNoType : ExpDefFile :=
  ⟨some true, none, some "exp1", some false⟩

/-- A fold-metrics oracle with fixed rendered values. -/
def mW : Nat → FoldMetrics :=
  fun _ => ⟨"1.5", "10", "0.9", "0.8", "0.7"⟩

/-- A fold operation that fails at fold 2 and succeeds elsewhere. -/
def opW : FoldOp String Nat :=
  fun k => if k = 2 then Except.error "boom" else Except.ok k

end HarComparison

namespace HarComparison

universe v

/-! ### Helper lemmas -/

theorem flatten_length_of_shape {α : Type v} {t c : Nat} (m : List (List α))
    (hlen : m.length = t) (hrow : ∀ r ∈ m, r.length = c) :
    m.flatten.length = t * c := by
  induction m generalizing t with
  | nil => simp [← hlen]
  | cons r m ih =>
    cases t with
    | zero => simp at hlen
    | succ t =>
      have hmt : m.length = t := by simpa using hlen
      have hr : r.length = c := hrow r (by simp)
      have hm : ∀ s ∈ m, s.length = c := fun s hs => hrow s (by simp [hs])
      simp [List.flatten_cons, ih hmt hm, hr, Nat.succ_mul, Nat.add_comm]

theorem splitRows_flatten {α : Type v} {c : Nat} (m : List (List α))
    (h : ∀ r ∈ m, r.length = c) :
    splitRows m.length c m.flatten = m := by
  induction m with
  | nil => rfl
  | cons r m ih =>
    have hr : r.length = c := h r (by simp)
    have hm : ∀ s ∈ m, s.length = c := fun s hs => h s (by simp [hs])
    unfold splitRows
    rw [List.length_cons, List.range_succ_eq_map, List.map_cons, List.map_map]
    congr 1
    · rw [Nat.zero_mul, List.drop_zero, List.flatten_cons, List.take_left' hr]
    · have hrec := ih hm
      unfold splitRows at hrec
      refine Eq.trans (List.map_congr_left ?_) hrec
      intro j hj
      show ((r :: m).flatten.drop (Nat.succ j * c)).take c
        = (m.flatten.drop (j * c)).take c
      rw [List.flatten_cons, Nat.succ_mul, Nat.add_comm (j * c) c,
        ← List.drop_drop, List.drop_left' hr]

theorem getD_mem_of_lt {β : Type v} [Inhabited β] (x : List β) (i : Nat)
    (h : i < x.length) : x.getD i default ∈ x := by
  rw [List.getD_eq_getElem?_getD, List.getElem?_eq_getElem h]
  exact List.getElem_mem h

theorem getD_map_flatten {α : Type v} (x : List (List (List α))) (i : Nat) :
    (x.map List.flatten).getD i default = (x.getD i default).flatten := by
  induction x generalizing i with
  | nil => rfl
  | cons m x ih =>
    cases i with
    | zero => rfl
    | succ j => exact ih j

theorem isShape3_select {α : Type v} (x : List (List (List α))) (n t c : Nat)
    (hx : isShape3 n t c x) (idx : List Nat)
    (hidx : ∀ i ∈ idx, i < x.length) :
    isShape3 idx.length t c (select x idx) := by
  refine ⟨by simp [select], ?_⟩
  intro m hm
  rw [select, List.mem_map] at hm
  obtain ⟨i, hi, rfl⟩ := hm
  exact hx.2 _ (getD_mem_of_lt x i (hidx i hi))

theorem isShape4_cnnReshape {α : Type v} (x : List (List (List α))) (n t c : Nat)
    (hx : isShape3 n t c x) :
    isShape4 n 1 t c (cnnReshape x) := by
  refine ⟨by simpa [cnnReshape] using hx.1, ?_⟩
  intro b hb
  rw [cnnReshape, List.mem_map] at hb
  obtain ⟨m, hm, rfl⟩ := hb
  refine ⟨rfl, ?_⟩
  intro m' hm'
  rw [List.mem_singleton] at hm'
  subst hm'
  exact hx.2 _ hm

/-! ### Claim theorems -/

/-- C1 counterexample: with the gyroscope flag requested and a dataset whose
train gyroscope array is present but whose test gyroscope array is null, the
effective flag computed on line 56 is true although not all of the dataset's
gyroscope arrays are non-null, so the claimed iff fails at this input. -/
theorem gyro_iff_counterexample :
    ¬ (effectiveGyro true dsMixed
        = (true && (dsMixed.x_gyr_train.isSome && dsMixed.x_gyr_test.isSome))) := by
  decide

/-- C1 (amended): effective gyroscope usage equals the requested flag AND
presence of the *train* gyroscope array; when it is true the train split is
the channel concatenation, and the test split is the channel concatenation
whenever the test gyroscope array is also present; when it is false both
splits use accelerometer channels only. -/
theorem gyro_gating {α : Type v} (flag : Bool) (ds : Dataset α) :
    effectiveGyro flag ds = (flag && ds.x_gyr_train.isSome) ∧
    (∀ g, ds.x_gyr_train = some g → effectiveGyro flag ds = true →
      trainFeatures flag ds = Except.ok (concatChannels ds.x_acc_train g)) ∧
    (∀ g, ds.x_gyr_test = some g → effectiveGyro flag ds = true →
      testFeatures flag ds = Except.ok (concatChannels ds.x_acc_test g)) ∧
    (effectiveGyro flag ds = false →
      trainFeatures flag ds = Except.ok ds.x_acc_train ∧
      testFeatures flag ds = Except.ok ds.x_acc_test) := by
  refine ⟨rfl, ?_, ?_, ?_⟩
  · intro g hg he
    simp [trainFeatures, he, npConcatOpt, hg]
  · intro g hg he
    simp [testFeatures, he, npConcatOpt, hg]
  · intro he
    exact ⟨by simp [trainFeatures, he], by simp [testFeatures, he]⟩

/-- Witness for the amended C1 at concrete datasets. -/
theorem gyro_gating_witness :
    effectiveGyro true dsFull = (true && dsFull.x_gyr_train.isSome) ∧
    trainFeatures true dsFull = Except.ok (concatChannels accA gyrA) ∧
    testFeatures true dsFull = Except.ok (concatChannels accA gyrA) ∧
    (trainFeatures false dsFull = Except.ok accA ∧
      testFeatures false dsFull = Except.ok accA) := by
  refine ⟨(gyro_gating true dsFull).1, ?_, ?_, ?_⟩
  · exact (gyro_gating true dsFull).2.1 gyrA rfl rfl
  · exact (gyro_gating true dsFull).2.2.1 gyrA rfl rfl
  · exact (gyro_gating false dsFull).2.2.2 rfl

/-- C10: when the flag is requested, the train gyroscope array is present,
and the test gyroscope array is null, the effective flag (computed solely
from the train array on line 56) is still true, and the test-split
concatenation on line 58 fails with numpy's TypeError instead of falling
back to accelerometer-only channels. -/
theorem gyro_test_concat_fails {α : Type v} (flag : Bool) (ds : Dataset α)
    (h1 : flag = true) (h2 : ds.x_gyr_train.isSome = true)
    (h3 : ds.x_gyr_test = none) :
    effectiveGyro flag ds = true ∧
    testFeatures flag ds = Except.error RunError.typeError ∧
    testFeatures flag ds ≠ Except.ok ds.x_acc_test := by
  have he : effectiveGyro flag ds = true := by
    simp [effectiveGyro, h1, h2]
  refine ⟨he, ?_, ?_⟩
  · simp [testFeatures, he, npConcatOpt, h3]
  · simp [testFeatures, he, npConcatOpt, h3]

/-- Witness for C10 at the mixed dataset. -/
theorem gyro_test_concat_fails_witness :
    effectiveGyro true dsMixed = true ∧
    testFeatures true dsMixed = Except.error RunError.typeError ∧
    testFeatures true dsMixed ≠ Except.ok dsMixed.x_acc_test :=
  gyro_test_concat_fails true dsMixed rfl rfl rfl

/-- C3: for every array of shape (N, T, C), the dbn reshape produces an
array of shape (N, T*C), and reshaping the result back to (N, T, C)
recovers the original array element for element. -/
theorem dbn_reshape_roundtrip {α : Type v} (x : List (List (List α)))
    (n t c : Nat) (h : isShape3 n t c x) :
    isShape2 n (t * c) (dbnReshape x) ∧ reshape3 t c (dbnReshape x) = x := by
  obtain ⟨hlen, hmem⟩ := h
  constructor
  · refine ⟨by simpa [dbnReshape] using hlen, ?_⟩
    intro r hr
    rw [dbnReshape, List.mem_map] at hr
    obtain ⟨m, hm, rfl⟩ := hr
    exact flatten_length_of_shape m (hmem m hm).1 (hmem m hm).2
  · rw [reshape3, dbnReshape, List.map_map]
    have hpt : ∀ m ∈ x, (splitRows t c ∘ List.flatten) m = id m := by
      intro m hm
      have hs := splitRows_flatten m (hmem m hm).2
      rw [(hmem m hm).1] at hs
      simpa using hs
    rw [List.map_congr_left hpt, List.map_id]

/-- Witness for C3 at the concrete 2 by 2 by 2 array. -/
theorem dbn_reshape_roundtrip_witness :
    isShape2 2 (2 * 2) (dbnReshape accA) ∧ reshape3 2 2 (dbnReshape accA) = accA :=
  dbn_reshape_roundtrip accA 2 2 2 (by decide)

/-- C4: the cnn reshape sends a shape (N, T, C) array (N, T, C ≥ 1) to shape
(N, 1, T, C); in the run it is the reshape dispatched for "cnn" on the test
array before fold iteration (lines 63-64) and on each fold's sliced train
and validation arrays after slicing (lines 115-117), with the sliced result
again of the claimed shape. -/
theorem cnn_reshape_pipeline {α : Type v} (x : List (List (List α)))
    (n t c : Nat) (h : isShape3 n t c x)
    (hn : 1 ≤ n) (ht : 1 ≤ t) (hc : 1 ≤ c) :
    isShape4 n 1 t c (cnnReshape x) ∧
    reshapeTest "cnn" x = Feat.r4 (cnnReshape x) ∧
    ∀ idx : List Nat, (∀ i ∈ idx, i < x.length) →
      reshapeFold "cnn" (select x idx) = Feat.r4 (cnnReshape (select x idx)) ∧
      isShape4 idx.length 1 t c (cnnReshape (select x idx)) := by
  refine ⟨isShape4_cnnReshape x n t c h, rfl, ?_⟩
  intro idx hidx
  exact ⟨rfl, isShape4_cnnReshape _ idx.length t c (isShape3_select x n t c h idx hidx)⟩

/-- Witness for C4 at the concrete 2 by 2 by 2 array with index list [1, 0]. -/
theorem cnn_reshape_pipeline_witness :
    isShape4 2 1 2 2 (cnnReshape accA) ∧
    reshapeTest "cnn" accA = Feat.r4 (cnnReshape accA) ∧
    (reshapeFold "cnn" (select accA [1, 0])
        = Feat.r4 (cnnReshape (select accA [1, 0])) ∧
      isShape4 2 1 2 2 (cnnReshape (select accA [1, 0]))) := by
  have hmain := cnn_reshape_pipeline accA 2 2 2 (by decide)
    (by decide) (by decide) (by decide)
  exact ⟨hmain.1, hmain.2.1, hmain.2.2 [1, 0] (by decide)⟩

/-- C9: flattening to (N, T*C) commutes with row slicing: slicing rows of
the flattened array equals flattening the row-sliced array, so the dbn
reshape applied to the whole training array before fold splitting is
equivalent to applying it per fold after splitting. -/
theorem dbn_flatten_commutes_select {α : Type v} (x : List (List (List α)))
    (idx : List Nat) (h : ∀ i ∈ idx, i < x.length) :
    select (dbnReshape x) idx = dbnReshape (select x idx) := by
  unfold select dbnReshape
  rw [List.map_map]
  apply List.map_congr_left
  intro i hi
  exact getD_map_flatten x i

/-- Witness for C9 at the concrete array with index list [1, 0]. -/
theorem dbn_flatten_commutes_select_witness :
    select (dbnReshape accA) [1, 0] = dbnReshape (select accA [1, 0]) :=
  dbn_flatten_commutes_select accA [1, 0] (by decide)

/-! ### Splitter lemmas and claims C2, C5 -/

theorem mem_valIdx (seed k : Nat) (y : List Nat) (f i : Nat) :
    i ∈ valIdx seed k y f ↔ i < y.length ∧ foldOf seed k y i = f := by
  simp [valIdx, List.mem_filter, List.mem_range]

theorem mem_trainIdx (seed k : Nat) (y : List Nat) (f i : Nat) :
    i ∈ trainIdx seed k y f ↔ i < y.length ∧ foldOf seed k y i ≠ f := by
  simp [trainIdx, List.mem_filter, List.mem_range]

/-- C2: for every fold count k ≥ 2 and label array, the splitter yields
exactly k folds, the fold entries are the train/validation index pairs, the
validation sets are pairwise disjoint, their union is the full training
index set, and for each fold the union of its train and validation indices
is the full training index set. -/
theorem skf_partition (seed k : Nat) (y : List Nat) (hk : 2 ≤ k) :
    (skfSplit seed k y).length = k ∧
    (∀ f, f < k → (skfSplit seed k y).getD f ([], [])
      = (trainIdx seed k y f, valIdx seed k y f)) ∧
    (∀ f g, f ≠ g → ∀ i, i ∈ valIdx seed k y f → i ∉ valIdx seed k y g) ∧
    (∀ i, i < y.length ↔ ∃ f, f < k ∧ i ∈ valIdx seed k y f) ∧
    (∀ f i, i < y.length ↔ (i ∈ trainIdx seed k y f ∨ i ∈ valIdx seed k y f)) := by
  have hk0 : 0 < k := lt_of_lt_of_le (by norm_num) hk
  refine ⟨by simp [skfSplit], ?_, ?_, ?_, ?_⟩
  · intro f hf
    simp [skfSplit, List.getD_eq_getElem?_getD, List.getElem?_map,
      List.getElem?_range hf]
  · intro f g hfg i hif hig
    rw [mem_valIdx] at hif hig
    exact hfg (hif.2.symm.trans hig.2)
  · intro i
    constructor
    · intro hi
      refine ⟨foldOf seed k y i, ?_, (mem_valIdx seed k y _ i).2 ⟨hi, rfl⟩⟩
      unfold foldOf
      exact Nat.mod_lt _ hk0
    · rintro ⟨f, hf, hmem⟩
      exact ((mem_valIdx seed k y f i).1 hmem).1
  · intro f i
    constructor
    · intro hi
      by_cases hc : foldOf seed k y i = f
      · exact Or.inr ((mem_valIdx seed k y f i).2 ⟨hi, hc⟩)
      · exact Or.inl ((mem_trainIdx seed k y f i).2 ⟨hi, hc⟩)
    · intro hor
      cases hor with
      | inl hmem => exact ((mem_trainIdx seed k y f i).1 hmem).1
      | inr hmem => exact ((mem_valIdx seed k y f i).1 hmem).1

/-- Witness for C2 with k = 2 over four labels. -/
theorem skf_partition_witness :
    (skfSplit 0 2 [0, 1, 0, 1]).length = 2 ∧
    (skfSplit 0 2 [0, 1, 0, 1]).getD 0 ([], [])
      = (trainIdx 0 2 [0, 1, 0, 1] 0, valIdx 0 2 [0, 1, 0, 1] 0) ∧
    (0 ∈ valIdx 0 2 [0, 1, 0, 1] 0 → 0 ∉ valIdx 0 2 [0, 1, 0, 1] 1) ∧
    (0 < 4 ↔ ∃ f, f < 2 ∧ 0 ∈ valIdx 0 2 [0, 1, 0, 1] f) ∧
    (3 < 4 ↔ (3 ∈ trainIdx 0 2 [0, 1, 0, 1] 0 ∨ 3 ∈ valIdx 0 2 [0, 1, 0, 1] 0)) := by
  have hmain := skf_partition 0 2 [0, 1, 0, 1] (by decide)
  exact ⟨hmain.1, hmain.2.1 0 (by decide), hmain.2.2.1 0 1 (by decide) 0,
    hmain.2.2.2.1 0, hmain.2.2.2.2 0 3⟩

/-- C5: two runs of the fold-building step (line 79, `StratifiedKFold` with
`random_state=0`) over the same training features and labels produce
identical fold index partitions — the seeded splitter is a pure function of
its inputs, with the seed fixed by the harness. -/
theorem fold_building_deterministic {α : Type v} (x₁ x₂ : List (List (List α)))
    (y₁ y₂ : List Nat) (k : Nat) (hx : x₁ = x₂) (hy : y₁ = y₂) :
    buildFolds x₁ y₁ k = buildFolds x₂ y₂ k := by
  rw [hx, hy]

/-- Witness for C5 at a concrete label array. -/
theorem fold_building_deterministic_witness :
    buildFolds accA [0, 1] 2 = buildFolds accA [0, 1] 2 :=
  fold_building_deterministic accA accA [0, 1] [0, 1] 2 rfl rfl

/-! ### Claim C6: missing `type` key -/

/-- C6: a definition file lacking the `type` key aborts the run with a
configuration error during key extraction (lines 45-48), and the data
loading step (line 55) is never invoked. -/
theorem missing_type_aborts {α : Type v} (d : ExpDefFile)
    (lr : Except RunError (Dataset α)) (h : d.arch = none) :
    (∃ key, (runSetup d lr).1 = Except.error (RunError.configError key)) ∧
    Event.loadData ∉ (runSetup d lr).2 := by
  cases hg : d.gyroscope with
  | none => refine ⟨⟨"gyroscope", ?_⟩, ?_⟩ <;> simp [runSetup, hg]
  | some g => refine ⟨⟨"type", ?_⟩, ?_⟩ <;> simp [runSetup, hg, h]

/-- Witness for C6 at a concrete definition object lacking `type`. -/
theorem missing_type_aborts_witness :
    (∃ key, (runSetup defNoType (Except.ok dsFull)).1
      = Except.error (RunError.configError key)) ∧
    Event.loadData ∉ (runSetup defNoType (Except.ok dsFull)).2 :=
  missing_type_aborts defNoType (Except.ok dsFull) rfl

/-! ### Claim C7: full log rewrite per fold on the dbn path -/

theorem concatStrings_append (a b : List String) :
    concatStrings (a ++ b) = concatStrings a ++ concatStrings b := by
  induction a with
  | nil => simp [concatStrings]
  | cons s ss ih => simp [concatStrings, ih, String.append_assoc]

theorem reportRows_succ (M : Nat → FoldMetrics) (i : Nat) :
    reportRows M (i + 1) = reportRows M i ++ [renderRow (i + 1) (M (i + 1))] := by
  rw [reportRows, List.range'_concat, List.map_append, ← reportRows]
  simp [Nat.add_comm]

theorem dbnLoop_row (save : Bool) (dataset expName : String)
    (M : Nat → FoldMetrics) (i : Nat) :
    (dbnLoop save dataset expName M i).row
      = headerRow ++ concatStrings (reportRows M i) := by
  induction i with
  | zero => simp [dbnLoop, reportRows, concatStrings]
  | succ i ih =>
    simp only [dbnLoop, dbnStep, reportRows_succ, concatStrings_append, ih]
    simp [concatStrings, String.append_assoc]

/-- C7: on the dbn path with saving enabled, after every completed fold
i ≥ 1 the log file named {dataset}_{experiment_name}.csv holds exactly the
header row followed by one data row per completed fold 1..i, in fold order —
the whole accumulated report, rewritten in full at every fold. -/
theorem dbn_log_full_rewrite (dataset expName : String)
    (M : Nat → FoldMetrics) (i : Nat) (h : 1 ≤ i) :
    (dbnLoop true dataset expName M i).file
      = some ⟨logFileName dataset expName,
          headerRow ++ concatStrings (reportRows M i)⟩ := by
  cases i with
  | zero => exact absurd h (by decide)
  | succ i =>
    have hrow := dbnLoop_row true dataset expName M (i + 1)
    simp only [dbnLoop, dbnStep] at hrow ⊢
    simp [hrow]

/-- Witness for C7 after two folds. -/
theorem dbn_log_full_rewrite_witness :
    (dbnLoop true "hapt" "exp1" mW 2).file
      = some ⟨logFileName "hapt" "exp1",
          headerRow ++ concatStrings (reportRows mW 2)⟩ :=
  dbn_log_full_rewrite "hapt" "exp1" mW 2 (by decide)

/-! ### Claim C8: failure propagation in the fold loop -/

/-- C8: a collaborator failure (fit/predict/train) at some fold propagates
out of the fold loop unchanged: the loop result is that error, the failing
fold and each earlier fold are attempted exactly once, and no later fold is
attempted — no retry, no skipping to the next fold. -/
theorem fold_failure_propagates {E R : Type} (op : FoldOp E R)
    (pre post : List Nat) (j : Nat) (e : E)
    (hpre : ∀ i ∈ pre, ∃ m, op i = Except.ok m)
    (hj : op j = Except.error e) :
    runFoldList op (pre ++ j :: post) = Except.error e ∧
    attempted op (pre ++ j :: post) = pre ++ [j] := by
  induction pre with
  | nil => simp [runFoldList, attempted, hj]
  | cons a pre ih =>
    obtain ⟨m, hm⟩ := hpre a (by simp)
    have hrest := ih (fun i hi => hpre i (by simp [hi]))
    simp [runFoldList, attempted, hm, hrest.1, hrest.2]

/-- Witness for C8: folds [1, 2, 3, 4, 5] with a failure at fold 2. -/
theorem fold_failure_propagates_witness :
    runFoldList opW ([1] ++ 2 :: [3, 4, 5]) = Except.error "boom" ∧
    attempted opW ([1] ++ 2 :: [3, 4, 5]) = [1] ++ [2] := by
  refine fold_failure_propagates opW [1] [3, 4, 5] 2 "boom" ?_ rfl
  intro i hi
  simp only [List.mem_singleton] at hi
  subst hi
  exact ⟨1, rfl⟩

end HarComparison
